import Mathlib

/-!
# Tenderscraper: verification of the filtering/classification core

Shallow embedding of the tender-filtering pipeline implemented in
`comprehensive_filter_tenders.py` and `oman_tender_scraper.py`.

* Python strings are Lean `String`s (all configured data is ASCII);
  `s.lower()` is `lower`, the Python substring test `needle in hay`
  is `pyIn`, and `sep.join(l)` is `pyJoin sep l`.
* A tender record (a Python `dict` of string fields) is an association
  list `Record`; `getField?` is dict lookup, `setField` is dict
  assignment (overwrite in place, append on new key).
* A failed dict subscript `tender["k"]` raises `KeyError("k")`,
  modelled by `Except PyError`.
* The two source files define byte-identical watchlists `keywords` and
  `monitored_entities`; they are defined once here.
-/

namespace Tenderscraper

/-- Contiguous-substring test on character lists: `substrB n h` is true iff
`n` occurs as a contiguous run inside `h` (Python `n in h` semantics,
including `substrB [] h = true`). -/
def substrB (n : List Char) : List Char → Bool
  | [] => n.isEmpty
  | c :: cs => n.isPrefixOf (c :: cs) || substrB n cs

/-- Python's `needle in hay` on strings. -/
def pyIn (needle hay : String) : Bool :=
  substrB needle.data hay.data

/-- Python's `s.lower()` (ASCII: the configured data contains only ASCII). -/
def lower (s : String) : String :=
  String.mk (s.data.map Char.toLower)

/-- Python's `sep.join(parts)`. -/
def pyJoin (sep : String) : List String → String
  | [] => ""
  | [a] => a
  | a :: b :: rest => a ++ sep ++ pyJoin sep (b :: rest)

/-- A tender record: a Python dict with string keys and string values,
as an association list in insertion order. -/
abbrev Record := List (String × String)

/-- Dict lookup `r[k]` as an `Option`: value of the first matching key. -/
def getField? : Record → String → Option String
  | [], _ => none
  | p :: r, k => if p.1 = k then some p.2 else getField? r k

/-- Python's `k in r` dict-membership test. -/
def hasField (r : Record) (k : String) : Bool :=
  (getField? r k).isSome

/-- Dict assignment `r[k] = v`: overwrites the first entry with key `k`
in place, appends `(k, v)` when the key is absent. -/
def setField : Record → String → String → Record
  | [], k, v => [(k, v)]
  | p :: r, k, v => if p.1 = k then (k, v) :: r else p :: setField r k v

/-- Python exceptions raised by the pipeline: a failed dict subscript
`tender["k"]` raises `KeyError("k")`. -/
inductive PyError where
  | keyError : String → PyError
deriving DecidableEq, Repr

/-- `tender[k]`: dict subscript, raising `KeyError k` when absent. -/
def getItem (r : Record) (k : String) : Except PyError String :=
  match getField? r k with
  | some v => Except.ok v
  | none => Except.error (PyError.keyError k)

/-- The keyword watchlist, exactly as listed in both source files. -/
def keywords : List String := [
  "ai infrastructure", "cloud", "vmware", "infrastructure as a service",
  "digital transformation", "scaling", "migration", "gpu", "llm", "oracle",
  "chatbot", "ai", "machine learning", "artificial intelligence",
  "cloud computing", "data center", "virtualization", "devops",
  "microservices", "database", "analytics", "big data"
]

/-- The monitored-entities watchlist, exactly as listed in both source files. -/
def monitored_entities : List String := [
  "bank muscat", "bank dhofar", "sohar international bank", "bank nizwa",
  "al izz islamic bank", "oman housing bank", "national bank of oman",
  "al ahli bank", "central bank of oman", "oman arab bank",
  "oman development bank", "muscat clearing depository", "dhofar insurance",
  "omantel", "vodafone", "ooredoo", "oman broadband company",
  "telecommunication regulatory authority",
  "petroleum development oman", "oq", "british petroleum", "mb petroleum",
  "oman oil marketing", "daleel", "minerals development oman",
  "ministry of finance", "ministry of health", "ministry of defense",
  "ministry of technology and communications", "ministry of oil",
  "ministry of interior", "ministry",
  "royal oman police", "royal air force of oman", "royal navy of oman",
  "sultan special forces", "internal security service",
  "royal hospital", "sultan qaboos university hospital",
  "armed forces hospital", "hospital",
  "sultan qaboos university", "university of applied sciences",
  "dhofar university", "university"
]

/-- `any(keyword.lower() in title for keyword in kws)` where `title` is the
already lower-cased title. -/
def keywordMatchW (kws : List String) (title : String) : Bool :=
  kws.any (fun kw => pyIn (lower kw) title)

/-- `any(monitored_entity.lower() in entity for monitored_entity in ents)`
where `entity` is the already lower-cased entity name. -/
def entityMatchW (ents : List String) (entity : String) : Bool :=
  ents.any (fun e => pyIn (lower e) entity)

/-- `[kw for kw in kws if kw.lower() in title]`. -/
def matchedKeywordsW (kws : List String) (title : String) : List String :=
  kws.filter (fun kw => pyIn (lower kw) title)

/-- `[ent for ent in ents if ent.lower() in entity]`. -/
def matchedEntitiesW (ents : List String) (entity : String) : List String :=
  ents.filter (fun e => pyIn (lower e) entity)

/-- Building `tender["Match_Reason"]`: the `match_reasons` list gets a
`"Keywords: ..."` clause when the keywords matched and an `"Entity: ..."`
clause when a monitored entity matched, then `"; ".join(match_reasons)`.
`title` and `entity` are the already lower-cased fields. -/
def matchReasonW (kws ents : List String) (title entity : String) : String :=
  pyJoin "; "
    ((if keywordMatchW kws title then
        ["Keywords: " ++ pyJoin ", " (matchedKeywordsW kws title)]
      else []) ++
     (if entityMatchW ents entity then
        ["Entity: " ++ pyJoin ", " (matchedEntitiesW ents entity)]
      else []))

/-- One iteration of the filter loop on one `tender`, parameterised by the
watchlists (`self.keywords` / `self.monitored_entities` in the scraper
class): reads and lower-cases `tender["Tender Title"]` and
`tender["Entity"]` (each raising `KeyError` when absent), and when either
watchlist matches returns the record with `Match_Reason` assigned,
otherwise `none` (the record is not appended to the output). -/
def classifyStepW (kws ents : List String) (r : Record) :
    Except PyError (Option Record) :=
  match getItem r "Tender Title" with
  | Except.error e => Except.error e
  | Except.ok t =>
    match getItem r "Entity" with
    | Except.error e => Except.error e
    | Except.ok en =>
      let title := lower t
      let entity := lower en
      if keywordMatchW kws title || entityMatchW ents entity then
        Except.ok (some (setField r "Match_Reason"
          (matchReasonW kws ents title entity)))
      else
        Except.ok none

/-- The filter loop over the whole tender list (`filter_tenders` /
the loop in `comprehensive_filter_tenders.py`): processes records in
order, keeps the classified matches, and propagates the first raised
`KeyError`, aborting the run. -/
def filterTendersWE (kws ents : List String) : List Record → Except PyError (List Record)
  | [] => Except.ok []
  | r :: rs =>
    match classifyStepW kws ents r with
    | Except.error e => Except.error e
    | Except.ok none => filterTendersWE kws ents rs
    | Except.ok (some r') =>
      match filterTendersWE kws ents rs with
      | Except.error e => Except.error e
      | Except.ok rest => Except.ok (r' :: rest)

/-- The filter instantiated at the configured watchlists. -/
def classifyStep (r : Record) : Except PyError (Option Record) :=
  classifyStepW keywords monitored_entities r

/-- The match reason at the configured watchlists. -/
def matchReason (title entity : String) : String :=
  matchReasonW keywords monitored_entities title entity

/-- `filter_tenders` at the configured watchlists. -/
def filterTendersE : List Record → Except PyError (List Record) :=
  filterTendersWE keywords monitored_entities

/-- `tender["Tender Title"]` read totally (used only to describe records
whose fields are present). -/
def titleOf (r : Record) : String :=
  (getField? r "Tender Title").getD ""

/-- `tender["Entity"]` read totally. -/
def entityOf (r : Record) : String :=
  (getField? r "Entity").getD ""

/-- The record has both fields the filter loop reads. -/
def wellFormedB (r : Record) : Bool :=
  (getField? r "Tender Title").isSome && (getField? r "Entity").isSome

/-- `keyword_match` for a record. -/
def keywordMatchR (r : Record) : Bool :=
  keywordMatchW keywords (lower (titleOf r))

/-- `entity_match` for a record. -/
def entityMatchR (r : Record) : Bool :=
  entityMatchW monitored_entities (lower (entityOf r))

/-- `keyword_match or entity_match`: the record is retained. -/
def matchedB (r : Record) : Bool :=
  keywordMatchR r || entityMatchR r

/-- `matching_keywords` for a record. -/
def matchedKeywordsR (r : Record) : List String :=
  matchedKeywordsW keywords (lower (titleOf r))

/-- `matching_entities` for a record. -/
def matchedEntitiesR (r : Record) : List String :=
  matchedEntitiesW monitored_entities (lower (entityOf r))

/-- The match reason of a record. -/
def matchReasonR (r : Record) : String :=
  matchReason (lower (titleOf r)) (lower (entityOf r))

/-- The record as it appears in the filtered output:
`tender["Match_Reason"] = "; ".join(match_reasons)`. -/
def addReason (r : Record) : Record :=
  setField r "Match_Reason" (matchReasonR r)

/-- A sample matching record (Scenario 1 of the spec). -/
def sampleMatch : Record :=
  [("Tender No", "1001"),
   ("Tender Title", "Cloud Migration Services for Data Center"),
   ("Entity", "Ministry of Finance"),
   ("Date", "2024-01-01")]

/-- A sample non-matching record (Scenario 2 of the spec). -/
def sampleNoMatch : Record :=
  [("Tender No", "1002"),
   ("Tender Title", "Office Furniture Supply"),
   ("Entity", "Al Noor Trading LLC"),
   ("Date", "2024-01-02")]

theorem classifyStep_wf (r : Record) (h : wellFormedB r = true) :
    classifyStep r = Except.ok (if matchedB r then some (addReason r) else none) := by
  have h' := h
  unfold wellFormedB at h'
  rw [Bool.and_eq_true] at h'
  obtain ⟨t, ht⟩ := Option.isSome_iff_exists.mp h'.1
  obtain ⟨en, he⟩ := Option.isSome_iff_exists.mp h'.2
  have htO : titleOf r = t := by simp [titleOf, ht]
  have heO : entityOf r = en := by simp [entityOf, he]
  simp only [classifyStep, classifyStepW, getItem, ht, he, matchedB, keywordMatchR,
    entityMatchR, addReason, matchReasonR, matchReason, htO, heO]
  split <;> rfl

theorem filterTendersE_wf (rs : List Record) (h : ∀ r ∈ rs, wellFormedB r = true) :
    filterTendersE rs = Except.ok ((rs.filter matchedB).map addReason) := by
  induction rs with
  | nil => rfl
  | cons r rs ih =>
    have hr := classifyStep_wf r (h r (by simp))
    have ih' := ih (fun x hx => h x (by simp [hx]))
    have hstep : filterTendersE (r :: rs) =
        match classifyStep r with
        | Except.error e => Except.error e
        | Except.ok none => filterTendersE rs
        | Except.ok (some r') =>
          match filterTendersE rs with
          | Except.error e => Except.error e
          | Except.ok rest => Except.ok (r' :: rest) := rfl
    rw [hstep, hr, ih']
    cases hm : matchedB r <;> simp [List.filter_cons, hm]

/-- C1: a record is retained by the filter iff at least one keyword is a
case-insensitive substring of its title or at least one monitored entity
is a case-insensitive substring of its entity name; the filtered output
is exactly the matching records (with `Match_Reason` assigned), so every
record matching neither is absent from it entirely. -/
theorem filter_retains_iff_matched (rs : List Record) (r : Record)
    (h : rs.all wellFormedB = true) :
    filterTendersE rs = Except.ok ((rs.filter matchedB).map addReason) ∧
    (matchedB r = true ↔
      ((∃ kw ∈ keywords, pyIn (lower kw) (lower (titleOf r)) = true) ∨
       (∃ e ∈ monitored_entities, pyIn (lower e) (lower (entityOf r)) = true))) := by
  constructor
  · exact filterTendersE_wf rs (fun x hx => by
      rw [List.all_eq_true] at h; exact h x hx)
  · simp [matchedB, keywordMatchR, entityMatchR, keywordMatchW, entityMatchW,
      List.any_eq_true]

/-- Witness for C1 at Scenario 1 and Scenario 2 records. -/
theorem filter_retains_iff_matched_witness :
    ([sampleMatch, sampleNoMatch].all wellFormedB = true) ∧
    (filterTendersE [sampleMatch, sampleNoMatch] =
      Except.ok (([sampleMatch, sampleNoMatch].filter matchedB).map addReason) ∧
    (matchedB sampleMatch = true ↔
      ((∃ kw ∈ keywords, pyIn (lower kw) (lower (titleOf sampleMatch)) = true) ∨
       (∃ e ∈ monitored_entities,
          pyIn (lower e) (lower (entityOf sampleMatch)) = true)))) :=
  ⟨by decide, filter_retains_iff_matched [sampleMatch, sampleNoMatch] sampleMatch
    (by decide)⟩

/-- C2: the match reason is the `"; "`-join of a `"Keywords: "` clause
(present iff the keywords matched) followed by an `"Entity: "` clause
(present iff a monitored entity matched), each listing the comma-joined
matched entries; the matched lists are sublists of the respective
watchlists (hence in watchlist order) containing exactly the matching
entries. -/
theorem match_reason_structure (title entity : String) :
    (matchReason title entity =
      match keywordMatchW keywords title, entityMatchW monitored_entities entity with
      | true, true =>
          "Keywords: " ++ pyJoin ", " (matchedKeywordsW keywords title) ++ "; " ++
            ("Entity: " ++ pyJoin ", " (matchedEntitiesW monitored_entities entity))
      | true, false => "Keywords: " ++ pyJoin ", " (matchedKeywordsW keywords title)
      | false, true => "Entity: " ++ pyJoin ", " (matchedEntitiesW monitored_entities entity)
      | false, false => "") ∧
    (matchedKeywordsW keywords title).Sublist keywords ∧
    (matchedEntitiesW monitored_entities entity).Sublist monitored_entities ∧
    (∀ kw, kw ∈ matchedKeywordsW keywords title ↔
      kw ∈ keywords ∧ pyIn (lower kw) title = true) ∧
    (∀ e, e ∈ matchedEntitiesW monitored_entities entity ↔
      e ∈ monitored_entities ∧ pyIn (lower e) entity = true) := by
  refine ⟨?_, List.filter_sublist _, List.filter_sublist _, ?_, ?_⟩
  · cases hk : keywordMatchW keywords title <;>
      cases he : entityMatchW monitored_entities entity <;>
      simp [matchReason, matchReasonW, hk, he, pyJoin]
  · intro kw
    simp [matchedKeywordsW, List.mem_filter]
  · intro e
    simp [matchedEntitiesW, List.mem_filter]

/-- C3: Scenario 1 — the record with title
`"Cloud Migration Services for Data Center"` and entity
`"Ministry of Finance"` matches on both keywords and entity, with match
reason exactly
`"Keywords: cloud, migration, data center; Entity: ministry of finance, ministry"`. -/
theorem scenario1_match :
    keywordMatchW keywords (lower "Cloud Migration Services for Data Center") = true ∧
    entityMatchW monitored_entities (lower "Ministry of Finance") = true ∧
    matchReason (lower "Cloud Migration Services for Data Center")
        (lower "Ministry of Finance") =
      "Keywords: cloud, migration, data center; Entity: ministry of finance, ministry" := by
  decide

/-- `tender["Entity"]` as the grouping key of `organize_by_entity`
(read totally; the aggregation is applied to filtered records, which
always carry the field — the theorems assume it explicitly). -/
def entityKeyOf (r : Record) : String :=
  (getField? r "Entity").getD ""

/-- One iteration of the `organize_by_entity` loop on the dict being
built: if the entity key is present, append the tender to its list in
place; otherwise add the key at the end with the singleton list
(`if entity not in organized_tenders: organized_tenders[entity] = []`
followed by `organized_tenders[entity].append(tender)`). -/
def appendAt : List (String × List Record) → String → Record → List (String × List Record)
  | [], e, t => [(e, [t])]
  | p :: acc, e, t =>
    if p.1 = e then (p.1, p.2 ++ [t]) :: acc else p :: appendAt acc e t

/-- `organize_by_entity`: builds the insertion-ordered dict from entity
name to the list of that entity's tenders. -/
def organize_by_entity (ts : List Record) : List (String × List Record) :=
  ts.foldl (fun acc t => appendAt acc (entityKeyOf t) t) []

/-- The keys in order of first occurrence, stated from the spec's words
("key insertion order = first-occurrence order of that entity in the
input sequence") as the comparison point for the aggregation. -/
def firstOccKeys : List String → List String
  | [] => []
  | e :: es => e :: (firstOccKeys es).filter (fun x => x != e)

/-- The specification shape of the aggregation, from the spec's words:
keys in first-occurrence order, each mapped to the input's records with
that entity, in input order. -/
def groupSpec (ts : List Record) : List (String × List Record) :=
  (firstOccKeys (ts.map entityKeyOf)).map
    (fun e => (e, ts.filter (fun t => entityKeyOf t == e)))

theorem mem_firstOccKeys (x : String) (es : List String) :
    x ∈ firstOccKeys es ↔ x ∈ es := by
  induction es with
  | nil => simp [firstOccKeys]
  | cons e es ih =>
    simp only [firstOccKeys, List.mem_cons, List.mem_filter, ih, bne_iff_ne, ne_eq]
    by_cases hxe : x = e <;> simp [hxe]

theorem nodup_firstOccKeys (es : List String) : (firstOccKeys es).Nodup := by
  induction es with
  | nil => simp [firstOccKeys]
  | cons e es ih =>
    simp only [firstOccKeys]
    rw [List.nodup_cons]
    exact ⟨by simp [List.mem_filter], ih.filter _⟩

theorem firstOccKeys_append_singleton (es : List String) (e : String) :
    firstOccKeys (es ++ [e]) =
      if e ∈ es then firstOccKeys es else firstOccKeys es ++ [e] := by
  induction es with
  | nil => simp [firstOccKeys]
  | cons a es ih =>
    show firstOccKeys (a :: (es ++ [e])) = _
    rw [firstOccKeys, ih]
    by_cases hae : e ∈ es
    · rw [if_pos hae, if_pos (List.mem_cons.mpr (Or.inr hae))]
      rfl
    · rw [if_neg hae]
      by_cases hea : e = a
      · subst hea
        rw [if_pos (List.mem_cons.mpr (Or.inl rfl))]
        simp [List.filter_append, firstOccKeys]
      · rw [if_neg (by simp [List.mem_cons, hea, hae])]
        simp [List.filter_append, firstOccKeys, hea]

theorem appendAt_map (f : String → List Record) (e0 : String) (t : Record) :
    ∀ (keys : List String), keys.Nodup →
      appendAt (keys.map (fun e => (e, f e))) e0 t =
        if e0 ∈ keys then
          keys.map (fun e => (e, if e = e0 then f e ++ [t] else f e))
        else keys.map (fun e => (e, f e)) ++ [(e0, [t])]
  | [], _ => by simp [appendAt]
  | k :: keys, hnd => by
    rw [List.nodup_cons] at hnd
    by_cases hk : k = e0
    · subst hk
      have hmap : keys.map (fun e => (e, if e = k then f e ++ [t] else f e)) =
          keys.map (fun e => (e, f e)) :=
        List.map_congr_left (fun e he => by
          have : e ≠ k := fun h => hnd.1 (h ▸ he)
          simp [this])
      simp [appendAt, List.mem_cons, hmap]
    · have ih := appendAt_map f e0 t keys hnd.2
      by_cases hmem : e0 ∈ keys
      · simp [appendAt, hk, ih, hmem, List.mem_cons, Ne.symm hk]
      · simp [appendAt, hk, ih, hmem, List.mem_cons, Ne.symm hk]

theorem organize_eq_groupSpec (ts : List Record) :
    organize_by_entity ts = groupSpec ts := by
  induction ts using List.reverseRecOn with
  | nil => rfl
  | append_singleton us t ih =>
    have h1 : organize_by_entity (us ++ [t]) =
        appendAt (organize_by_entity us) (entityKeyOf t) t := by
      simp [organize_by_entity, List.foldl_append]
    rw [h1, ih]
    unfold groupSpec
    rw [List.map_append, List.map_singleton, firstOccKeys_append_singleton]
    rw [appendAt_map _ _ _ _ (nodup_firstOccKeys (us.map entityKeyOf))]
    by_cases hmem : entityKeyOf t ∈ us.map entityKeyOf
    · rw [if_pos ((mem_firstOccKeys _ _).mpr hmem), if_pos hmem]
      refine List.map_congr_left (fun e he => ?_)
      by_cases he0 : e = entityKeyOf t
      · simp [List.filter_append, he0, List.filter_cons, beq_iff_eq]
      · simp [List.filter_append, he0, Ne.symm he0, List.filter_cons, beq_iff_eq]
    · rw [if_neg (fun hc => hmem ((mem_firstOccKeys _ _).mp hc)), if_neg hmem,
        List.map_append]
      congr 1
      · refine List.map_congr_left (fun e he => ?_)
        have hne : entityKeyOf t ≠ e := fun h =>
          hmem (h ▸ (mem_firstOccKeys _ _).mp he)
        simp [List.filter_append, List.filter_cons, beq_iff_eq, hne]
      · have hnil : us.filter (fun x => entityKeyOf x == entityKeyOf t) = [] := by
          rw [List.filter_eq_nil_iff]
          intro x hx hbeq
          exact hmem (by
            have : entityKeyOf x = entityKeyOf t := by
              simpa [beq_iff_eq] using hbeq
            exact this ▸ List.mem_map_of_mem entityKeyOf hx)
        simp [List.filter_append, List.filter_cons, hnil]

theorem join_filter_perm : ∀ (keys : List String), keys.Nodup →
    ∀ (ts : List Record), (∀ x ∈ ts, entityKeyOf x ∈ keys) →
      ((keys.map (fun e => ts.filter (fun x => entityKeyOf x == e))).flatten).Perm ts
  | [], _, ts, hcov => by
    have hts : ts = [] := by
      cases ts with
      | nil => rfl
      | cons a ts => exact absurd (hcov a (by simp)) (by simp)
    simp [hts]
  | e :: keys, hnd, ts, hcov => by
    rw [List.nodup_cons] at hnd
    have hmap : keys.map (fun e' => ts.filter (fun x => entityKeyOf x == e')) =
        keys.map (fun e' =>
          (ts.filter (fun x => !(entityKeyOf x == e))).filter
            (fun x => entityKeyOf x == e')) := by
      refine List.map_congr_left (fun e' he' => ?_)
      rw [List.filter_filter]
      refine (List.filter_congr (fun x hx => ?_)).symm
      have h2 : e' ≠ e := fun h => hnd.1 (h ▸ he')
      by_cases hxe : entityKeyOf x = e'
      · simp [hxe, h2]
      · simp [hxe]
    have ihcov : ∀ x ∈ ts.filter (fun x => !(entityKeyOf x == e)),
        entityKeyOf x ∈ keys := by
      intro x hx
      rw [List.mem_filter] at hx
      have h1 := hcov x hx.1
      have h2 : entityKeyOf x ≠ e := by
        have := hx.2
        simpa [beq_iff_eq] using this
      simpa [h2] using h1
    have ih := join_filter_perm keys hnd.2
      (ts.filter (fun x => !(entityKeyOf x == e))) ihcov
    have step1 : ((e :: keys).map
          (fun e' => ts.filter (fun x => entityKeyOf x == e'))).flatten =
        ts.filter (fun x => entityKeyOf x == e) ++
          (keys.map (fun e' => ts.filter (fun x => entityKeyOf x == e'))).flatten := by
      simp
    rw [step1, hmap]
    exact (List.Perm.append_left _ ih).trans (List.filter_append_perm _ ts)

/-- C4: the aggregation is a stable partition by entity name —
flattening the per-entity lists is a permutation of the input (no match
dropped or duplicated), each entity's list is exactly the input's
records with that entity in input order, and the keys appear in order of
each entity's first occurrence. -/
theorem organize_stable_partition (ts : List Record)
    (h : ts.all (fun t => hasField t "Entity") = true) :
    (((organize_by_entity ts).map Prod.snd).flatten).Perm ts ∧
    (∀ p ∈ organize_by_entity ts,
      p.2 = ts.filter (fun t => entityKeyOf t == p.1)) ∧
    (organize_by_entity ts).map Prod.fst = firstOccKeys (ts.map entityKeyOf) := by
  rw [organize_eq_groupSpec]
  refine ⟨?_, ?_, ?_⟩
  · unfold groupSpec
    rw [List.map_map]
    exact join_filter_perm _ (nodup_firstOccKeys _) ts
      (fun x hx => (mem_firstOccKeys _ _).mpr (List.mem_map_of_mem entityKeyOf hx))
  · intro p hp
    unfold groupSpec at hp
    obtain ⟨e, _, rfl⟩ := List.mem_map.mp hp
    rfl
  · unfold groupSpec
    rw [List.map_map]
    exact List.map_id _

/-- Witness for C4 at Scenario 3: two tenders with the same entity
`"Bank Muscat"` are grouped under one key, in original relative order. -/
theorem organize_stable_partition_witness :
    ([[("Tender No", "2001"), ("Tender Title", "Core Banking Upgrade"),
        ("Entity", "Bank Muscat")],
      [("Tender No", "2002"), ("Tender Title", "ATM Network Expansion"),
        ("Entity", "Bank Muscat")]].all (fun t => hasField t "Entity") = true) ∧
    ((((organize_by_entity
        [[("Tender No", "2001"), ("Tender Title", "Core Banking Upgrade"),
          ("Entity", "Bank Muscat")],
         [("Tender No", "2002"), ("Tender Title", "ATM Network Expansion"),
          ("Entity", "Bank Muscat")]]).map Prod.snd).flatten).Perm
      [[("Tender No", "2001"), ("Tender Title", "Core Banking Upgrade"),
        ("Entity", "Bank Muscat")],
       [("Tender No", "2002"), ("Tender Title", "ATM Network Expansion"),
        ("Entity", "Bank Muscat")]] ∧
    (∀ p ∈ organize_by_entity
        [[("Tender No", "2001"), ("Tender Title", "Core Banking Upgrade"),
          ("Entity", "Bank Muscat")],
         [("Tender No", "2002"), ("Tender Title", "ATM Network Expansion"),
          ("Entity", "Bank Muscat")]],
      p.2 = [[("Tender No", "2001"), ("Tender Title", "Core Banking Upgrade"),
          ("Entity", "Bank Muscat")],
         [("Tender No", "2002"), ("Tender Title", "ATM Network Expansion"),
          ("Entity", "Bank Muscat")]].filter (fun t => entityKeyOf t == p.1)) ∧
    (organize_by_entity
        [[("Tender No", "2001"), ("Tender Title", "Core Banking Upgrade"),
          ("Entity", "Bank Muscat")],
         [("Tender No", "2002"), ("Tender Title", "ATM Network Expansion"),
          ("Entity", "Bank Muscat")]]).map Prod.fst =
      firstOccKeys ([[("Tender No", "2001"), ("Tender Title", "Core Banking Upgrade"),
          ("Entity", "Bank Muscat")],
         [("Tender No", "2002"), ("Tender Title", "ATM Network Expansion"),
          ("Entity", "Bank Muscat")]].map entityKeyOf)) :=
  ⟨by decide, organize_stable_partition _ (by decide)⟩

theorem getField?_setField_ne (r : Record) (k v k' : String) (hne : k' ≠ k) :
    getField? (setField r k v) k' = getField? r k' := by
  induction r with
  | nil => simp [setField, getField?, Ne.symm hne]
  | cons p r ih =>
    by_cases hp : p.1 = k
    · simp [setField, hp, getField?, Ne.symm hne]
    · by_cases hp' : p.1 = k'
      · simp [setField, hp, getField?, hp', hne]
      · simp [setField, hp, getField?, hp', ih]

theorem setField_setField_same (r : Record) (k v : String) :
    setField (setField r k v) k v = setField r k v := by
  induction r with
  | nil => simp [setField]
  | cons p r ih =>
    by_cases hp : p.1 = k
    · simp [setField, hp]
    · simp [setField, hp, ih]

/-- The classified Scenario-1 record: the input dict with `Match_Reason`
appended. -/
def sampleMatchClassified : Record :=
  [("Tender No", "1001"),
   ("Tender Title", "Cloud Migration Services for Data Center"),
   ("Entity", "Ministry of Finance"),
   ("Date", "2024-01-01"),
   ("Match_Reason",
    "Keywords: cloud, migration, data center; Entity: ministry of finance, ministry")]

/-- C9: classification is idempotent — if classifying a record produces
the classified record `r₁`, classifying `r₁` again reproduces exactly
`r₁` (the `Match_Reason` assignment overwrites itself with an equal
value), with the same match booleans, the same matched lists and the
same match reason. -/
theorem classify_idempotent (r r₁ : Record)
    (h : classifyStep r = Except.ok (some r₁)) :
    classifyStep r₁ = Except.ok (some r₁) ∧
    keywordMatchR r₁ = keywordMatchR r ∧
    entityMatchR r₁ = entityMatchR r ∧
    matchedKeywordsR r₁ = matchedKeywordsR r ∧
    matchedEntitiesR r₁ = matchedEntitiesR r ∧
    matchReasonR r₁ = matchReasonR r := by
  have hTM : ("Tender Title" : String) ≠ "Match_Reason" := by decide
  have hEM : ("Entity" : String) ≠ "Match_Reason" := by decide
  unfold classifyStep classifyStepW getItem at h
  cases ht : getField? r "Tender Title" with
  | none => rw [ht] at h; exact absurd h (by simp)
  | some t =>
    cases he : getField? r "Entity" with
    | none => rw [ht, he] at h; exact absurd h (by simp)
    | some en =>
      rw [ht, he] at h
      simp only [] at h
      cases hc : keywordMatchW keywords (lower t) ||
          entityMatchW monitored_entities (lower en) with
      | false => rw [hc] at h; exact absurd h (by simp)
      | true =>
        rw [hc] at h
        have h' : setField r "Match_Reason"
            (matchReasonW keywords monitored_entities (lower t) (lower en)) = r₁ := by
          simpa using h
        subst h'
        have ht1 : getField? (setField r "Match_Reason"
            (matchReasonW keywords monitored_entities (lower t) (lower en)))
            "Tender Title" = some t := by
          rw [getField?_setField_ne _ _ _ _ hTM, ht]
        have he1 : getField? (setField r "Match_Reason"
            (matchReasonW keywords monitored_entities (lower t) (lower en)))
            "Entity" = some en := by
          rw [getField?_setField_ne _ _ _ _ hEM, he]
        refine ⟨?_, ?_, ?_, ?_, ?_, ?_⟩
        · unfold classifyStep classifyStepW getItem
          rw [ht1, he1]
          simp [hc, setField_setField_same]
        · simp [keywordMatchR, titleOf, ht1, ht]
        · simp [entityMatchR, entityOf, he1, he]
        · simp [matchedKeywordsR, titleOf, ht1, ht]
        · simp [matchedEntitiesR, entityOf, he1, he]
        · simp [matchReasonR, titleOf, entityOf, ht1, he1, ht, he]

/-- Witness for C9 at the Scenario-1 record. -/
theorem classify_idempotent_witness :
    classifyStep sampleMatch = Except.ok (some sampleMatchClassified) ∧
    (classifyStep sampleMatchClassified = Except.ok (some sampleMatchClassified) ∧
     keywordMatchR sampleMatchClassified = keywordMatchR sampleMatch ∧
     entityMatchR sampleMatchClassified = entityMatchR sampleMatch ∧
     matchedKeywordsR sampleMatchClassified = matchedKeywordsR sampleMatch ∧
     matchedEntitiesR sampleMatchClassified = matchedEntitiesR sampleMatch ∧
     matchReasonR sampleMatchClassified = matchReasonR sampleMatch) :=
  ⟨by rfl, classify_idempotent sampleMatch sampleMatchClassified (by rfl)⟩

/-- A record whose `Tender Title` field is missing. -/
def sampleMissingTitle : Record :=
  [("Tender No", "T1"), ("Entity", "Bank Muscat"), ("Date", "2024-01-01")]

/-- C6 counterexample: a record with identifier `"T1"` and no
`Tender Title` field aborts the filter with `KeyError "Tender Title"` —
a plain `KeyError` naming the missing field; the record's identifier
`"T1"` does not occur in the error, and no `MalformedRecordError` exists
anywhere in the code. -/
theorem malformed_record_counterexample :
    filterTendersE [sampleMissingTitle] =
      Except.error (PyError.keyError "Tender Title") ∧
    pyIn "T1" "Tender Title" = false :=
  ⟨by rfl, by decide⟩

theorem filterTendersE_append_wf (xs ys : List Record)
    (h : ∀ x ∈ xs, wellFormedB x = true) :
    filterTendersE (xs ++ ys) =
      match filterTendersE ys with
      | Except.error e => Except.error e
      | Except.ok out => Except.ok (((xs.filter matchedB).map addReason) ++ out) := by
  induction xs with
  | nil =>
    show filterTendersE ys = _
    cases hys : filterTendersE ys <;> simp
  | cons x xs ih =>
    have hx := classifyStep_wf x (h x (by simp))
    have ih' := ih (fun a ha => h a (by simp [ha]))
    have hstep : filterTendersE ((x :: xs) ++ ys) =
        match classifyStep x with
        | Except.error e => Except.error e
        | Except.ok none => filterTendersE (xs ++ ys)
        | Except.ok (some r') =>
          match filterTendersE (xs ++ ys) with
          | Except.error e => Except.error e
          | Except.ok rest => Except.ok (r' :: rest) := rfl
    rw [hstep, hx, ih']
    cases hm : matchedB x <;> cases hys : filterTendersE ys <;>
      simp [List.filter_cons, hm]

/-- C6 amended: when a tender record lacks the `Tender Title` field or
the `Entity` field, the run aborts with a plain `KeyError` naming the
missing field name (the records before it being well-formed); it does
not name the record's identifier and there is no `MalformedRecordError`
— but the record is indeed not silently skipped. -/
theorem filter_aborts_on_malformed (rs₁ : List Record) (r : Record) (rs₂ : List Record)
    (h₁ : rs₁.all wellFormedB = true)
    (h₂ : getField? r "Tender Title" = none ∨ getField? r "Entity" = none) :
    filterTendersE (rs₁ ++ r :: rs₂) = Except.error (PyError.keyError "Tender Title") ∨
    filterTendersE (rs₁ ++ r :: rs₂) = Except.error (PyError.keyError "Entity") := by
  have hcs : classifyStep r = Except.error (PyError.keyError "Tender Title") ∨
      classifyStep r = Except.error (PyError.keyError "Entity") := by
    cases ht : getField? r "Tender Title" with
    | none =>
      left
      simp only [classifyStep, classifyStepW, getItem, ht]
    | some t =>
      right
      have he : getField? r "Entity" = none := by
        rcases h₂ with h | h
        · rw [ht] at h; cases h
        · exact h
      simp only [classifyStep, classifyStepW, getItem, ht, he]
  have hstep : ∀ e, classifyStep r = Except.error e →
      filterTendersE (r :: rs₂) = Except.error e := by
    intro e hce
    have hd : filterTendersE (r :: rs₂) =
        match classifyStep r with
        | Except.error e => Except.error e
        | Except.ok none => filterTendersE rs₂
        | Except.ok (some r') =>
          match filterTendersE rs₂ with
          | Except.error e => Except.error e
          | Except.ok rest => Except.ok (r' :: rest) := rfl
    rw [hd, hce]
  have happ := filterTendersE_append_wf rs₁ (r :: rs₂)
    (fun x hx => by rw [List.all_eq_true] at h₁; exact h₁ x hx)
  rcases hcs with hc | hc
  · left
    rw [happ, hstep _ hc]
  · right
    rw [happ, hstep _ hc]

/-- Witness for C6 amended: a well-formed record, then the malformed
record, then another record. -/
theorem filter_aborts_on_malformed_witness :
    ([sampleMatch].all wellFormedB = true) ∧
    (getField? sampleMissingTitle "Tender Title" = none ∨
      getField? sampleMissingTitle "Entity" = none) ∧
    (filterTendersE ([sampleMatch] ++ sampleMissingTitle :: [sampleNoMatch]) =
        Except.error (PyError.keyError "Tender Title") ∨
      filterTendersE ([sampleMatch] ++ sampleMissingTitle :: [sampleNoMatch]) =
        Except.error (PyError.keyError "Entity")) :=
  ⟨by decide, Or.inl (by decide),
    filter_aborts_on_malformed [sampleMatch] sampleMissingTitle [sampleNoMatch]
      (by decide) (Or.inl (by decide))⟩

/-- `OmanTenderScraper.run` on an already-loaded tender list: when the
list is empty it prints `"No tenders found. Exiting."` and returns early
(`if not all_tenders: return`) — producing no EntityGroup and no report,
modelled as `none`; otherwise it filters and organises, raising any
`KeyError` from filtering. (File output and the report's wall-clock
timestamp are outside the model.) -/
def runE (tenders : List Record) :
    Except PyError (Option (List (String × List Record))) :=
  if tenders.isEmpty then Except.ok none
  else
    match filterTendersE tenders with
    | Except.error e => Except.error e
    | Except.ok filtered => Except.ok (some (organize_by_entity filtered))

/-- `generate_report`'s summary count
(`sum(len(entity_tenders) for entity_tenders in organized_tenders.values())`). -/
def totalFiltered (org : List (String × List Record)) : Nat :=
  (org.map (fun p => p.2.length)).sum

/-- C7 counterexample: on the empty input `run` exits early with no
output at all (`none`) — not with an empty EntityGroup. -/
theorem run_empty_counterexample :
    runE [] = Except.ok none ∧
    (Except.ok none : Except PyError (Option (List (String × List Record)))) ≠
      Except.ok (some ([] : List (String × List Record))) := by
  exact ⟨rfl, by simp⟩

/-- C7 amended: the empty input sequence does not fail — `run` returns
early, producing neither an EntityGroup nor a report; the
filter-then-organise pipeline itself (as in the standalone filter
script) yields an empty EntityGroup and a zero total-match count. -/
theorem run_empty_amended :
    runE [] = Except.ok none ∧
    filterTendersE [] = Except.ok [] ∧
    organize_by_entity [] = [] ∧
    totalFiltered (organize_by_entity []) = 0 :=
  ⟨rfl, rfl, rfl, rfl⟩

theorem substrB_nil (l : List Char) : substrB [] l = true := by
  cases l <;> simp [substrB, List.isPrefixOf]

theorem pyIn_empty_left (hay : String) : pyIn "" hay = true :=
  substrB_nil hay.data

/-- C8 counterexample: there is no load-time validation — with an empty
string in the keyword watchlist nothing fails, and a record matching
nothing in the configured watchlists is retained with match reason
`"Keywords: "`. -/
theorem empty_watchlist_entry_counterexample :
    keywordMatchW keywords (lower "Road Resurfacing Works") = false ∧
    entityMatchW monitored_entities (lower "Unknown Trading Co") = false ∧
    filterTendersWE [""] []
        [[("Tender Title", "Road Resurfacing Works"),
          ("Entity", "Unknown Trading Co")]] =
      Except.ok [[("Tender Title", "Road Resurfacing Works"),
          ("Entity", "Unknown Trading Co"),
          ("Match_Reason", "Keywords: ")]] :=
  ⟨by decide, by decide, by rfl⟩

/-- C8 amended: the configured watchlists happen to contain no empty
string, but no `ConfigError` check exists at load time (the lists are
bare literals): an empty entry, if configured, is accepted and matches
every record. -/
theorem empty_watchlist_entries_amended :
    keywords.all (fun k => !(k == "")) = true ∧
    monitored_entities.all (fun e => !(e == "")) = true ∧
    (∀ title : String, keywordMatchW [""] title = true) ∧
    (∀ entityName : String, entityMatchW [""] entityName = true) := by
  refine ⟨by decide, by decide, ?_, ?_⟩
  · intro title
    show (pyIn (lower "") title || false) = true
    rw [show lower "" = "" from rfl, pyIn_empty_left]
    rfl
  · intro entityName
    show (pyIn (lower "") entityName || false) = true
    rw [show lower "" = "" from rfl, pyIn_empty_left]
    rfl

/-- C10: any title whose lower-casing contains `"ai"` anywhere — also
inside unrelated words such as "maintenance" or "repair" — keyword-
matches (the matching is raw substring matching with no word
boundaries), `"ai"` is among the matched keywords, and the retention
condition holds regardless of the entity. -/
theorem ai_substring_matches (title entityName : String)
    (h : pyIn "ai" (lower title) = true) :
    keywordMatchW keywords (lower title) = true ∧
    "ai" ∈ matchedKeywordsW keywords (lower title) ∧
    (keywordMatchW keywords (lower title) ||
      entityMatchW monitored_entities (lower entityName)) = true := by
  have hmem : "ai" ∈ keywords := by decide
  have hk : keywordMatchW keywords (lower title) = true := by
    rw [keywordMatchW, List.any_eq_true]
    exact ⟨"ai", hmem, by rw [show lower "ai" = "ai" from rfl]; exact h⟩
  refine ⟨hk, ?_, by simp [hk]⟩
  rw [matchedKeywordsW]
  exact List.mem_filter.mpr ⟨hmem, by rw [show lower "ai" = "ai" from rfl]; exact h⟩

/-- Witness for C10: `"Maintenance of Roads"` contains `"ai"` inside
"maintenance" and is keyword-matched. -/
theorem ai_substring_matches_witness :
    pyIn "ai" (lower "Maintenance of Roads") = true ∧
    (keywordMatchW keywords (lower "Maintenance of Roads") = true ∧
     "ai" ∈ matchedKeywordsW keywords (lower "Maintenance of Roads") ∧
     (keywordMatchW keywords (lower "Maintenance of Roads") ||
       entityMatchW monitored_entities (lower "Roads Authority")) = true) :=
  ⟨by decide, ai_substring_matches "Maintenance of Roads" "Roads Authority" (by decide)⟩

end Tenderscraper
